import Mathlib

/-!
Shallow embedding of the `pushover` repository (library crate `pushover_api`
and CLI crate `pushover_cli`) together with proofs about its behaviour.

The library builds a notification payload (`Message`), serializes it with
serde to JSON, performs one HTTP POST, and interprets the decoded response
(`RawMessageResponse`) into either a `MessageResponse` or an error.  The CLI
maps command-line matches onto a `Message` and delegates to `Message.send`.

JSON values are modelled by the inductive `Json`; all numbers occurring in
this wire format are integers, so the numeric case carries an `Int`.
Machine-integer fields (`i64` timestamp, `i32` status) are modelled as `Int`
with explicit range checks where the Rust code (via serde) would reject an
out-of-range number.  Fallible operations return `Except String`; a Rust
panic (`unreachable!`, `expect`) is modelled as an `Except.error` that
aborts the surrounding computation, matching the fact that a panic prevents
any subsequent step from running.
-/

/-- JSON values as produced and consumed by serde_json for this wire format. -/
inductive Json where
  | null : Json
  | str : String → Json
  | num : Int → Json
  | arr : List Json → Json
  | obj : List (String × Json) → Json

/-- Whether a JSON object contains an entry with the given key. -/
def Json.objHasKey (j : Json) (k : String) : Bool :=
  match j with
  | .obj entries => entries.any (fun kv => kv.fst = k)
  | _ => false

/-- First value bound to a key in a JSON object, if any. -/
def Json.objLookup (j : Json) (k : String) : Option Json :=
  match j with
  | .obj entries => (entries.find? (fun kv => kv.fst = k)).map Prod.snd
  | _ => none

/-- The message priority (`MessagePriority` in `lib.rs`), a closed enum with
`repr(i8)` values Lowest = -2, Low = -1, Normal = 0, High = 1. -/
inductive MessagePriority where
  | Lowest : MessagePriority
  | Low : MessagePriority
  | Normal : MessagePriority
  | High : MessagePriority
  deriving DecidableEq, Repr

/-- The wire integer of a priority (serde_repr serialization, `repr(i8)`). -/
def MessagePriority.toInt : MessagePriority → Int
  | .Lowest => -2
  | .Low => -1
  | .Normal => 0
  | .High => 1

/-- serde_repr deserialization: an integer maps back to the enum variant with
that discriminant, any other number is a decode error (`none`). -/
def MessagePriority.ofInt (n : Int) : Option MessagePriority :=
  if n = -2 then some .Lowest
  else if n = -1 then some .Low
  else if n = 0 then some .Normal
  else if n = 1 then some .High
  else none

/-- Rust `impl From<&str> for MessagePriority` (`lib.rs` lines 168-178).  The Rust
code ends in `unreachable!()`; that panic is modelled as `none`, so `none`
means "no priority value is returned, the program aborts". -/
def MessagePriority.fromStr (input : String) : Option MessagePriority :=
  if input = "-2" ∨ input = "lowest" then some .Lowest
  else if input = "-1" ∨ input = "low" then some .Low
  else if input = "0" ∨ input = "normal" then some .Normal
  else if input = "1" ∨ input = "high" then some .High
  else none

/-- The full message body sent to the Pushover API (`Message` in `lib.rs`).
The Rust `Option<i64>` timestamp is an optional `Int`; the i64 range only
matters at (de)serialization boundaries. -/
structure Message where
  token : String
  user : String
  message : String
  device : Option String
  title : Option String
  url : Option String
  url_title : Option String
  priority : Option MessagePriority
  sound : Option String
  timestamp : Option Int
  deriving DecidableEq, Repr

/-- Rust `#[derive(Default)]` for `Message`: empty strings, all options `None`. -/
def Message.default : Message :=
  ⟨"", "", "", none, none, none, none, none, none, none⟩

/-- serde serialization of an `Option<String>` field without
`skip_serializing_if`: `None` becomes an explicit JSON `null`. -/
def optStrJson : Option String → Json
  | none => .null
  | some s => .str s

/-- serde serialization of the `Option<MessagePriority>` field: `None` is
`null`, `Some p` is the discriminant integer. -/
def optPriorityJson : Option MessagePriority → Json
  | none => .null
  | some p => .num p.toInt

/-- serde serialization of the `Option<i64>` field: `None` is `null`. -/
def optIntJson : Option Int → Json
  | none => .null
  | some n => .num n

/-- Rust `Message::to_json` (`lib.rs` lines 121-124): the derived serde
serialization of the struct, fields in declaration order.  The Rust
function returns `Result<String>` but `serde_json::to_string` cannot fail
on this struct, so the model is the total function to the JSON value. -/
def Message.to_json (m : Message) : Json :=
  .obj
    [ ("token", .str m.token)
    , ("user", .str m.user)
    , ("message", .str m.message)
    , ("device", optStrJson m.device)
    , ("title", optStrJson m.title)
    , ("url", optStrJson m.url)
    , ("url_title", optStrJson m.url_title)
    , ("priority", optPriorityJson m.priority)
    , ("sound", optStrJson m.sound)
    , ("timestamp", optIntJson m.timestamp)
    ]

/-! ### Deserialization (serde derived `Deserialize` for `Message`) -/

/-- serde decode of a required `String` field. -/
def decodeString : Json → Except String String
  | .str s => .ok s
  | _ => .error "invalid type: expected a string"

/-- serde decode of an `Option<String>` field value: `null` is `None`. -/
def decodeOptString : Json → Except String (Option String)
  | .null => .ok none
  | .str s => .ok (some s)
  | _ => .error "invalid type: expected a string or null"

/-- serde decode of an `i64` number, with the i64 range check serde_json
performs. -/
def decodeI64 : Json → Except String Int
  | .num n =>
    if -(2 ^ 63) ≤ n ∧ n < 2 ^ 63 then .ok n
    else .error "invalid value: integer out of range for i64"
  | _ => .error "invalid type: expected an integer"

/-- serde decode of an `Option<i64>` field value. -/
def decodeOptI64 : Json → Except String (Option Int)
  | .null => .ok none
  | j => (decodeI64 j).map some

/-- serde decode of an `i32` number, with the i32 range check. -/
def decodeI32 : Json → Except String Int
  | .num n =>
    if -(2 ^ 31) ≤ n ∧ n < 2 ^ 31 then .ok n
    else .error "invalid value: integer out of range for i32"
  | _ => .error "invalid type: expected an integer"

/-- serde_repr decode of a `MessagePriority`: a number whose value is one of
the enum discriminants. -/
def decodePriority : Json → Except String MessagePriority
  | .num n =>
    match MessagePriority.ofInt n with
    | some p => .ok p
    | none => .error "invalid value: unknown MessagePriority discriminant"
  | _ => .error "invalid type: expected an integer"

/-- serde decode of an `Option<MessagePriority>` field value. -/
def decodeOptPriority : Json → Except String (Option MessagePriority)
  | .null => .ok none
  | j => (decodePriority j).map some

/-- serde decode of a `Vec<String>`. -/
def decodeStringList (j : Json) : Except String (List String) :=
  match j with
  | .arr items => items.mapM decodeString
  | _ => .error "invalid type: expected an array"

/-- Accumulator of the serde map visitor for `Message`: each field is
`none` until its key has been seen (the extra `Option` layer on optional
fields distinguishes "key absent" from "key bound to null"). -/
structure MsgAcc where
  token : Option String
  user : Option String
  message : Option String
  device : Option (Option String)
  title : Option (Option String)
  url : Option (Option String)
  url_title : Option (Option String)
  priority : Option (Option MessagePriority)
  sound : Option (Option String)
  timestamp : Option (Option Int)

/-- The all-unset visitor accumulator for `Message`. -/
def MsgAcc.init : MsgAcc :=
  ⟨none, none, none, none, none, none, none, none, none, none⟩

/-- One step of the serde map visitor for `Message`: dispatch on the key,
error on a duplicate known field, ignore unknown fields (the derive has no
`deny_unknown_fields`). -/
def msgStep (acc : MsgAcc) (kv : String × Json) : Except String MsgAcc :=
  let (k, v) := kv
  if k = "token" then
    if acc.token.isSome then .error "duplicate field token"
    else (decodeString v).map (fun s => { acc with token := some s })
  else if k = "user" then
    if acc.user.isSome then .error "duplicate field user"
    else (decodeString v).map (fun s => { acc with user := some s })
  else if k = "message" then
    if acc.message.isSome then .error "duplicate field message"
    else (decodeString v).map (fun s => { acc with message := some s })
  else if k = "device" then
    if acc.device.isSome then .error "duplicate field device"
    else (decodeOptString v).map (fun s => { acc with device := some s })
  else if k = "title" then
    if acc.title.isSome then .error "duplicate field title"
    else (decodeOptString v).map (fun s => { acc with title := some s })
  else if k = "url" then
    if acc.url.isSome then .error "duplicate field url"
    else (decodeOptString v).map (fun s => { acc with url := some s })
  else if k = "url_title" then
    if acc.url_title.isSome then .error "duplicate field url_title"
    else (decodeOptString v).map (fun s => { acc with url_title := some s })
  else if k = "priority" then
    if acc.priority.isSome then .error "duplicate field priority"
    else (decodeOptPriority v).map (fun p => { acc with priority := some p })
  else if k = "sound" then
    if acc.sound.isSome then .error "duplicate field sound"
    else (decodeOptString v).map (fun s => { acc with sound := some s })
  else if k = "timestamp" then
    if acc.timestamp.isSome then .error "duplicate field timestamp"
    else (decodeOptI64 v).map (fun t => { acc with timestamp := some t })
  else
    .ok acc

/-- Fold of the map visitor over the object entries. -/
def msgFold : MsgAcc → List (String × Json) → Except String MsgAcc
  | acc, [] => .ok acc
  | acc, kv :: rest => (msgStep acc kv).bind (fun acc2 => msgFold acc2 rest)

/-- End of the serde visit for `Message`: required string fields must have
been seen; an `Option` field whose key never appeared defaults to `None`. -/
def msgFinish (acc : MsgAcc) : Except String Message :=
  match acc.token, acc.user, acc.message with
  | some token, some user, some message =>
    .ok
      { token, user, message
      , device := acc.device.getD none
      , title := acc.title.getD none
      , url := acc.url.getD none
      , url_title := acc.url_title.getD none
      , priority := acc.priority.getD none
      , sound := acc.sound.getD none
      , timestamp := acc.timestamp.getD none }
  | none, _, _ => .error "missing field token"
  | _, none, _ => .error "missing field user"
  | _, _, none => .error "missing field message"

/-- Derived serde `Deserialize` for `Message`: the body must be a JSON
object, whose entries are visited in order. -/
def deserializeMessage (j : Json) : Except String Message :=
  match j with
  | .obj entries => (msgFold MsgAcc.init entries).bind msgFinish
  | _ => .error "invalid type: expected struct Message"

/-! ### Server response decoding and `Message::send` -/

/-- The wire response from Pushover (`RawMessageResponse` in `lib.rs`):
`errors` carries `#[serde(default)]`, `request` and `status` do not. -/
structure RawMessageResponse where
  errors : List String
  request : String
  status : Int
  deriving DecidableEq, Repr

/-- Visitor accumulator for `RawMessageResponse`. -/
structure RawAcc where
  errors : Option (List String)
  request : Option String
  status : Option Int

/-- The all-unset visitor accumulator for `RawMessageResponse`. -/
def RawAcc.init : RawAcc := ⟨none, none, none⟩

/-- One step of the serde map visitor for `RawMessageResponse`. -/
def rawStep (acc : RawAcc) (kv : String × Json) : Except String RawAcc :=
  let (k, v) := kv
  if k = "errors" then
    if acc.errors.isSome then .error "duplicate field errors"
    else (decodeStringList v).map (fun es => { acc with errors := some es })
  else if k = "request" then
    if acc.request.isSome then .error "duplicate field request"
    else (decodeString v).map (fun r => { acc with request := some r })
  else if k = "status" then
    if acc.status.isSome then .error "duplicate field status"
    else (decodeI32 v).map (fun s => { acc with status := some s })
  else
    .ok acc

/-- Fold of the map visitor over the object entries. -/
def rawFold : RawAcc → List (String × Json) → Except String RawAcc
  | acc, [] => .ok acc
  | acc, kv :: rest => (rawStep acc kv).bind (fun acc2 => rawFold acc2 rest)

/-- End of the serde visit for `RawMessageResponse`: `request` and `status`
are mandatory, a missing `errors` defaults to the empty vector
(`#[serde(default)]`). -/
def rawFinish (acc : RawAcc) : Except String RawMessageResponse :=
  match acc.request, acc.status with
  | some request, some status =>
    .ok { errors := acc.errors.getD [], request, status }
  | none, _ => .error "missing field request"
  | _, none => .error "missing field status"

/-- Derived serde `Deserialize` for `RawMessageResponse`
(`serde_json::from_str` at `lib.rs` line 108). -/
def deserializeRaw (j : Json) : Except String RawMessageResponse :=
  match j with
  | .obj entries => (rawFold RawAcc.init entries).bind rawFinish
  | _ => .error "invalid type: expected struct RawMessageResponse"

/-- The success value of `Message::send` (`MessageResponse` in `lib.rs`);
the HTTP status code is a bare `Nat`. -/
structure MessageResponse where
  http_status : Nat
  request : String
  status : Int
  deriving DecidableEq, Repr

/-- A transport-layer failure (`reqwest::Error`), opaque to this code. -/
structure ReqwestError where
  msg : String
  deriving DecidableEq, Repr

/-- What the blocking HTTP client hands back when the POST itself succeeds:
the status code and the body text.  The body is already split on JSON
well-formedness: `none` models a body that is not valid JSON at all,
`some j` a body parsing to the JSON value `j`. -/
structure HttpResponse where
  status : Nat
  body : Option Json

/-- The `anyhow::Error` values `Message::send` can return.  `anyhow`
erases the static type but keeps the concrete source error for
`downcast_ref`, so the model is the sum of the sources: a propagated
`reqwest::Error`, a propagated `serde_json::Error` (its message), or the
ad-hoc `anyhow!` message built from the server's `errors` list. -/
inductive PushoverError where
  | fromReqwest : ReqwestError → PushoverError
  | fromSerde : String → PushoverError
  | adhoc : String → PushoverError
  deriving DecidableEq, Repr

/-- The dynamic kind a caller recovers by `downcast_ref`: 0 for a
`reqwest::Error`, 1 for a `serde_json::Error`, 2 for a plain message. -/
def PushoverError.kind : PushoverError → Nat
  | .fromReqwest _ => 0
  | .fromSerde _ => 1
  | .adhoc _ => 2

/-- Rust `Message::send` (`lib.rs` lines 100-119).  The network is abstracted as
a `transport` function from the serialized request body to either a
transport error or an `HttpResponse`; everything after the POST follows the
source: decode the body as `RawMessageResponse`, succeed exactly when
`errors` is empty, otherwise fail with the entries joined by a comma and a
space. -/
def Message.send (m : Message)
    (transport : Json → Except ReqwestError HttpResponse) :
    Except PushoverError MessageResponse :=
  match transport m.to_json with
  | .error e => .error (.fromReqwest e)
  | .ok resp =>
    match resp.body with
    | none => .error (.fromSerde "expected value: not valid JSON")
    | some j =>
      match deserializeRaw j with
      | .error e => .error (.fromSerde e)
      | .ok raw =>
        if raw.errors.isEmpty then
          .ok { http_status := resp.status, request := raw.request, status := raw.status }
        else
          .error (.adhoc (String.intercalate ", " raw.errors))

/-- Rust `send_simple_message` (`lib.rs` lines 202-214): build a `Message` from
the three required fields with `..Message::default()` and send it. -/
def send_simple_message (token user message : String)
    (transport : Json → Except ReqwestError HttpResponse) :
    Except PushoverError MessageResponse :=
  Message.send
    { Message.default with
      token := token, user := user, message := message }
    transport

/-! ### CLI argument mapping (`main.rs` and `subcommands/send_message.rs`) -/

/-- Digits of a base-10 literal folded into a `Nat`: `none` when the list is
empty or contains a character that is not an ASCII digit. -/
def digitsToNat (cs : List Char) : Option Nat :=
  match cs with
  | [] => none
  | _ =>
    cs.foldlM
      (fun acc c =>
        if c.isDigit then some (acc * 10 + (c.toNat - 48)) else none)
      0

/-- Rust's `str::parse::<i64>`: an optional single leading sign followed by
one or more ASCII digits, rejected when the value overflows the i64 range. -/
def parseI64 (s : String) : Option Int :=
  match s.toList with
  | '-' :: rest =>
    (digitsToNat rest).bind
      (fun n => if (n : Int) ≤ 2 ^ 63 then some (-(n : Int)) else none)
  | '+' :: rest =>
    (digitsToNat rest).bind
      (fun n => if (n : Int) < 2 ^ 63 then some (n : Int) else none)
  | cs =>
    (digitsToNat cs).bind
      (fun n => if (n : Int) < 2 ^ 63 then some (n : Int) else none)

/-- The values clap hands to `main` for the `send-message` subcommand.
`message`, `token` and `user` are present because clap marks them required;
`device` is `values_of("device")`: `none` when the flag never occurred,
otherwise the occurrence values in command-line order; `priority` and
`timestamp` are still raw strings at this point. -/
structure SendMessageMatches where
  message : String
  token : String
  user : String
  title : Option String
  url : Option String
  url_title : Option String
  sound : Option String
  device : Option (List String)
  priority : Option String
  timestamp : Option String

/-- The body of `main` for the `send-message` subcommand (`main.rs` lines
25-54) up to the construction of the `Message`: join the repeated `device`
values with a comma, convert `priority` through
`MessagePriority::from` (whose `unreachable!` panic is an `Except.error`),
parse `timestamp` with `.parse()` whose failure hits
`.expect("Failed to parse timestamp to i64")` — also an `Except.error` —
and build the struct.  An error models a panic: the process dies before
any later step. -/
def buildMessage (cli : SendMessageMatches) : Except String Message :=
  let device := cli.device.map (fun values => String.intercalate "," values)
  match cli.priority with
  | some p =>
    match MessagePriority.fromStr p with
    | none => .error "internal error: entered unreachable code"
    | some pr => buildRest cli device (some pr)
  | none => buildRest cli device none
where
  /-- Continuation after the priority conversion: timestamp parsing and the
  struct literal of `main.rs` lines 43-54. -/
  buildRest (cli : SendMessageMatches) (device : Option String)
      (priority : Option MessagePriority) : Except String Message :=
    match cli.timestamp with
    | some v =>
      match parseI64 v with
      | none => .error "Failed to parse timestamp to i64"
      | some t => .ok (mk cli device priority (some t))
    | none => .ok (mk cli device priority none)
  /-- The `Message { .. }` struct literal of `main.rs` lines 43-54. -/
  mk (cli : SendMessageMatches) (device : Option String)
      (priority : Option MessagePriority) (timestamp : Option Int) : Message :=
    { message := cli.message
    , token := cli.token
    , user := cli.user
    , device
    , title := cli.title
    , url := cli.url
    , url_title := cli.url_title
    , priority
    , sound := cli.sound
    , timestamp }

/-- The full `send-message` path of `main`: build the `Message`, then
`.send()` it; a build panic or a send error terminates the process
(`.expect("Error sending message")`), modelled as `Except.error`. -/
def runSendMessage (cli : SendMessageMatches)
    (transport : Json → Except ReqwestError HttpResponse) :
    Except String MessageResponse :=
  match buildMessage cli with
  | .error e => .error e
  | .ok m =>
    match m.send transport with
    | .error _ => .error "Error sending message"
    | .ok r => .ok r

/-! ### Concrete values used in witnesses and counterexamples -/

/-- A concrete minimal message: the three required fields set, every
optional field absent. -/
def msgMin : Message := ⟨"tok", "usr", "hi", none, none, none, none, none, none, none⟩

/-- A concrete message mixing present and absent optional fields. -/
def msgFull : Message :=
  ⟨"t", "u", "m", some "d", none, some "https://example.com", none,
    some .High, none, some 1234567890⟩

/-- Concrete CLI matches with two `--device` occurrences. -/
def cliAB : SendMessageMatches :=
  ⟨"hi", "tok", "usr", none, none, none, none, some ["a", "b"], none, none⟩

/-- Concrete CLI matches with a `--timestamp` value that is not a number. -/
def cliBadTs : SendMessageMatches :=
  ⟨"hi", "tok", "usr", none, none, none, none, none, none, some "notanumber"⟩

/-- A successful response body with no `errors` key at all. -/
def bodyOk : Json := .obj [("status", .num 1), ("request", .str "rid")]

/-- A transport delivering `bodyOk` with HTTP status 200. -/
def trOk : Json → Except ReqwestError HttpResponse :=
  fun _ => .ok ⟨200, some bodyOk⟩

/-- A response body reporting two validation errors. -/
def bodyRej : Json :=
  .obj
    [ ("errors", .arr [.str "invalid token", .str "invalid user"])
    , ("request", .str "r")
    , ("status", .num 0)
    ]

/-- A transport delivering `bodyRej` with HTTP status 400. -/
def trRej : Json → Except ReqwestError HttpResponse :=
  fun _ => .ok ⟨400, some bodyRej⟩

/-- A valid-JSON response body with a non-empty `errors` array but no
`request` key. -/
def bodyNoReq : Json := .obj [("errors", .arr [.str "invalid token"]), ("status", .num 0)]

/-- A transport delivering `bodyNoReq` with HTTP status 400. -/
def trNoReq : Json → Except ReqwestError HttpResponse :=
  fun _ => .ok ⟨400, some bodyNoReq⟩

/-! ### Helper lemmas -/

/-- Decoding a serialized string field recovers the string. -/
theorem decodeString_str (s : String) : decodeString (.str s) = .ok s := rfl

/-- Decoding a serialized optional string field recovers it: `null` maps
back to `none`. -/
theorem decodeOptString_rt (o : Option String) :
    decodeOptString (optStrJson o) = .ok o := by cases o <;> rfl

/-- Decoding a serialized optional priority recovers it. -/
theorem decodeOptPriority_rt (o : Option MessagePriority) :
    decodeOptPriority (optPriorityJson o) = .ok o := by
  rcases o with _ | p
  · rfl
  · cases p <;> rfl

/-- Decoding a serialized optional timestamp in the i64 range recovers it. -/
theorem decodeOptI64_rt (o : Option Int)
    (h : ∀ t ∈ o, -(2 ^ 63) ≤ t ∧ t < 2 ^ 63) :
    decodeOptI64 (optIntJson o) = .ok o := by
  rcases o with _ | t
  · rfl
  · obtain ⟨h1, h2⟩ := h t (by simp)
    simp only [optIntJson, decodeOptI64, decodeI64]
    rw [if_pos ⟨h1, h2⟩]
    rfl

/-! ### Claims -/

/-- C1 counterexample: on a message with every optional field absent, the
serialized JSON still carries the `device` key, bound to `null` — the
derived serde `Serialize` has no `skip_serializing_if`, so absent optional
fields are not omitted from the wire JSON. -/
theorem message_to_json_absent_not_omitted :
    msgMin.device = none ∧
    msgMin.to_json.objHasKey "device" = true ∧
    msgMin.to_json.objLookup "device" = some Json.null :=
  ⟨rfl, rfl, rfl⟩

/-- C1 (amended): serializing a `Message` whose timestamp (when present)
fits in i64 and then deserializing the wire JSON round-trips every present
field unchanged and leaves every absent optional field absent; however an
absent optional field is serialized as an explicit JSON `null` binding for
its key, not omitted from the object. -/
theorem message_json_roundtrip (m : Message)
    (ht : ∀ t ∈ m.timestamp, -(2 ^ 63) ≤ t ∧ t < 2 ^ 63) :
    deserializeMessage m.to_json = .ok m ∧
    (m.device = none → m.to_json.objLookup "device" = some .null) ∧
    (m.title = none → m.to_json.objLookup "title" = some .null) ∧
    (m.url = none → m.to_json.objLookup "url" = some .null) ∧
    (m.url_title = none → m.to_json.objLookup "url_title" = some .null) ∧
    (m.priority = none → m.to_json.objLookup "priority" = some .null) ∧
    (m.sound = none → m.to_json.objLookup "sound" = some .null) ∧
    (m.timestamp = none → m.to_json.objLookup "timestamp" = some .null) := by
  refine ⟨?_, ?_, ?_, ?_, ?_, ?_, ?_, ?_⟩
  · obtain ⟨tok, usr, msg, dev, tit, url, urlt, pri, snd, ts⟩ := m
    have h64 := decodeOptI64_rt ts ht
    simp [deserializeMessage, Message.to_json, msgFold, msgStep, MsgAcc.init, msgFinish,
      decodeString_str, decodeOptString_rt, decodeOptPriority_rt, h64,
      Except.map, Except.bind]
  all_goals intro h
  all_goals rw [Message.to_json, h]
  all_goals rfl

/-- C1 witness: the round trip evaluated on a concrete message. -/
theorem message_json_roundtrip_witness :
    deserializeMessage msgFull.to_json = .ok msgFull ∧
    msgFull.to_json.objLookup "title" = some .null :=
  ⟨(message_json_roundtrip msgFull (by decide)).1,
    (message_json_roundtrip msgFull (by decide)).2.2.1 rfl⟩

/-- C4: the text-to-priority conversion maps each of the eight recognized
case-sensitive inputs to its level, and for each level the numeric-string
alias and the textual alias convert to equal values. -/
theorem messagePriority_fromStr_table :
    MessagePriority.fromStr "-2" = some .Lowest ∧
    MessagePriority.fromStr "lowest" = some .Lowest ∧
    MessagePriority.fromStr "-1" = some .Low ∧
    MessagePriority.fromStr "low" = some .Low ∧
    MessagePriority.fromStr "0" = some .Normal ∧
    MessagePriority.fromStr "normal" = some .Normal ∧
    MessagePriority.fromStr "1" = some .High ∧
    MessagePriority.fromStr "high" = some .High ∧
    MessagePriority.fromStr "-2" = MessagePriority.fromStr "lowest" ∧
    MessagePriority.fromStr "-1" = MessagePriority.fromStr "low" ∧
    MessagePriority.fromStr "0" = MessagePriority.fromStr "normal" ∧
    MessagePriority.fromStr "1" = MessagePriority.fromStr "high" := by
  decide

/-- C5: outside the eight recognized strings the conversion returns no
priority value at all — the `unreachable!` arm (modelled as `none`) is
taken, never a silent default. -/
theorem messagePriority_fromStr_unrecognized (s : String)
    (h : s ∉ (["-2", "lowest", "-1", "low", "0", "normal", "1", "high"] : List String)) :
    MessagePriority.fromStr s = none := by
  simp only [List.mem_cons, List.not_mem_nil, or_false, not_or] at h
  obtain ⟨h1, h2, h3, h4, h5, h6, h7, h8⟩ := h
  simp [MessagePriority.fromStr, h1, h2, h3, h4, h5, h6, h7, h8]

/-- C5 witness: the conversion aborts on the unrecognized input "2". -/
theorem messagePriority_fromStr_unrecognized_witness :
    MessagePriority.fromStr "2" = none :=
  messagePriority_fromStr_unrecognized "2" (by decide)

/-- C7: `send_simple_message` builds exactly the minimal request — the
three arguments in `token`, `user`, `message` and every optional field
absent, the same value manual construction gives — and delegates to
`Message::send` on it. -/
theorem send_simple_message_minimal (token user message : String)
    (transport : Json → Except ReqwestError HttpResponse) :
    ({ Message.default with
        token := token, user := user, message := message } : Message)
      = ⟨token, user, message, none, none, none, none, none, none, none⟩ ∧
    send_simple_message token user message transport
      = Message.send ⟨token, user, message, none, none, none, none, none, none, none⟩
          transport :=
  ⟨rfl, rfl⟩

/-! ### Lemmas about the response visitor fold -/

/-- A visitor step for a key other than `errors` leaves the `errors`
accumulator field unchanged. -/
theorem rawStep_errors_eq (acc acc1 : RawAcc) (k : String) (v : Json)
    (hk : k ≠ "errors") (h : rawStep acc (k, v) = .ok acc1) :
    acc1.errors = acc.errors := by
  simp only [rawStep] at h
  rw [if_neg hk] at h
  by_cases h2 : k = "request"
  · rw [if_pos h2] at h
    by_cases h3 : acc.request.isSome
    · rw [if_pos h3] at h; cases h
    · rw [if_neg h3] at h
      rcases hd : decodeString v with e | r <;> rw [hd] at h <;>
        simp only [Except.map] at h
      · cases h
      · cases h; rfl
  · rw [if_neg h2] at h
    by_cases h4 : k = "status"
    · rw [if_pos h4] at h
      by_cases h5 : acc.status.isSome
      · rw [if_pos h5] at h; cases h
      · rw [if_neg h5] at h
        rcases hd : decodeI32 v with e | s <;> rw [hd] at h <;>
          simp only [Except.map] at h
        · cases h
        · cases h; rfl
    · rw [if_neg h4] at h
      cases h
      rfl

/-- A visitor step for a key other than `request` leaves the `request`
accumulator field unchanged. -/
theorem rawStep_request_eq (acc acc1 : RawAcc) (k : String) (v : Json)
    (hk : k ≠ "request") (h : rawStep acc (k, v) = .ok acc1) :
    acc1.request = acc.request := by
  simp only [rawStep] at h
  by_cases h1 : k = "errors"
  · rw [if_pos h1] at h
    by_cases h3 : acc.errors.isSome
    · rw [if_pos h3] at h; cases h
    · rw [if_neg h3] at h
      rcases hd : decodeStringList v with e | es <;> rw [hd] at h <;>
        simp only [Except.map] at h
      · cases h
      · cases h; rfl
  · rw [if_neg h1, if_neg hk] at h
    by_cases h4 : k = "status"
    · rw [if_pos h4] at h
      by_cases h5 : acc.status.isSome
      · rw [if_pos h5] at h; cases h
      · rw [if_neg h5] at h
        rcases hd : decodeI32 v with e | s <;> rw [hd] at h <;>
          simp only [Except.map] at h
        · cases h
        · cases h; rfl
    · rw [if_neg h4] at h
      cases h
      rfl

/-- A visitor step for a key other than `status` leaves the `status`
accumulator field unchanged. -/
theorem rawStep_status_eq (acc acc1 : RawAcc) (k : String) (v : Json)
    (hk : k ≠ "status") (h : rawStep acc (k, v) = .ok acc1) :
    acc1.status = acc.status := by
  simp only [rawStep] at h
  by_cases h1 : k = "errors"
  · rw [if_pos h1] at h
    by_cases h3 : acc.errors.isSome
    · rw [if_pos h3] at h; cases h
    · rw [if_neg h3] at h
      rcases hd : decodeStringList v with e | es <;> rw [hd] at h <;>
        simp only [Except.map] at h
      · cases h
      · cases h; rfl
  · rw [if_neg h1] at h
    by_cases h2 : k = "request"
    · rw [if_pos h2] at h
      by_cases h5 : acc.request.isSome
      · rw [if_pos h5] at h; cases h
      · rw [if_neg h5] at h
        rcases hd : decodeString v with e | r <;> rw [hd] at h <;>
          simp only [Except.map] at h
        · cases h
        · cases h; rfl
    · rw [if_neg h2, if_neg hk] at h
      cases h
      rfl

/-- If the `errors` key never occurs, the fold never sets the `errors`
accumulator field. -/
theorem rawFold_errors_none (entries : List (String × Json)) :
    ∀ acc acc2 : RawAcc, rawFold acc entries = .ok acc2 →
      "errors" ∉ entries.map Prod.fst → acc.errors = none → acc2.errors = none := by
  induction entries with
  | nil => intro acc acc2 h _ ha; cases h; exact ha
  | cons kv rest ih =>
    intro acc acc2 h hk ha
    obtain ⟨k, v⟩ := kv
    simp only [List.map_cons, List.mem_cons, not_or] at hk
    simp only [rawFold] at h
    rcases hs : rawStep acc (k, v) with e | acc1 <;> rw [hs] at h <;>
      simp only [Except.bind] at h
    · cases h
    · exact ih acc1 acc2 h hk.2
        ((rawStep_errors_eq acc acc1 k v (Ne.symm hk.1) hs).trans ha)

/-- If the `request` key never occurs, the fold never sets the `request`
accumulator field. -/
theorem rawFold_request_none (entries : List (String × Json)) :
    ∀ acc acc2 : RawAcc, rawFold acc entries = .ok acc2 →
      "request" ∉ entries.map Prod.fst → acc.request = none → acc2.request = none := by
  induction entries with
  | nil => intro acc acc2 h _ ha; cases h; exact ha
  | cons kv rest ih =>
    intro acc acc2 h hk ha
    obtain ⟨k, v⟩ := kv
    simp only [List.map_cons, List.mem_cons, not_or] at hk
    simp only [rawFold] at h
    rcases hs : rawStep acc (k, v) with e | acc1 <;> rw [hs] at h <;>
      simp only [Except.bind] at h
    · cases h
    · exact ih acc1 acc2 h hk.2
        ((rawStep_request_eq acc acc1 k v (Ne.symm hk.1) hs).trans ha)

/-- If the `status` key never occurs, the fold never sets the `status`
accumulator field. -/
theorem rawFold_status_none (entries : List (String × Json)) :
    ∀ acc acc2 : RawAcc, rawFold acc entries = .ok acc2 →
      "status" ∉ entries.map Prod.fst → acc.status = none → acc2.status = none := by
  induction entries with
  | nil => intro acc acc2 h _ ha; cases h; exact ha
  | cons kv rest ih =>
    intro acc acc2 h hk ha
    obtain ⟨k, v⟩ := kv
    simp only [List.map_cons, List.mem_cons, not_or] at hk
    simp only [rawFold] at h
    rcases hs : rawStep acc (k, v) with e | acc1 <;> rw [hs] at h <;>
      simp only [Except.bind] at h
    · cases h
    · exact ih acc1 acc2 h hk.2
        ((rawStep_status_eq acc acc1 k v (Ne.symm hk.1) hs).trans ha)

/-- A successful finalize returns the accumulated `errors`, defaulting an
unset field to the empty list. -/
theorem rawFinish_errors (acc : RawAcc) (raw : RawMessageResponse)
    (h : rawFinish acc = .ok raw) : raw.errors = acc.errors.getD [] := by
  obtain ⟨es, rq, st⟩ := acc
  rcases rq with _ | r
  · simp only [rawFinish] at h
    cases h
  · rcases st with _ | s
    · simp only [rawFinish] at h
      cases h
    · simp only [rawFinish] at h
      cases h
      rfl

/-- The continuation of `buildMessage` stores the already computed device
value unchanged in the built message. -/
theorem buildRest_device (cli : SendMessageMatches) (device : Option String)
    (priority : Option MessagePriority) (m : Message)
    (h : buildMessage.buildRest cli device priority = .ok m) :
    m.device = device := by
  unfold buildMessage.buildRest at h
  split at h
  · split at h
    · cases h
    · cases h; rfl
  · cases h; rfl

/-- C2: `send` succeeds exactly when the decoded response's `errors` list is
empty, whatever the HTTP status code and the numeric `status` value; on
success the result carries the raw response's `request` and `status`
unchanged; and a decoded body without an `errors` key yields an empty
`errors` list. -/
theorem send_success_iff (m : Message) (hs : Nat) (j : Json)
    (raw : RawMessageResponse)
    (transport : Json → Except ReqwestError HttpResponse)
    (entries : List (String × Json)) (raw2 : RawMessageResponse)
    (htr : transport m.to_json = .ok ⟨hs, some j⟩)
    (hdec : deserializeRaw j = .ok raw) :
    ((m.send transport).isOk = true ↔ raw.errors = []) ∧
    (raw.errors = [] → m.send transport = .ok ⟨hs, raw.request, raw.status⟩) ∧
    (deserializeRaw (.obj entries) = .ok raw2 →
      "errors" ∉ entries.map Prod.fst → raw2.errors = []) := by
  refine ⟨?_, ?_, ?_⟩
  · obtain ⟨errs, req, st⟩ := raw
    simp only [Message.send, htr, hdec]
    rcases errs with _ | ⟨x, xs⟩ <;> simp [Except.isOk, Except.toBool]
  · intro he
    obtain ⟨errs, req, st⟩ := raw
    simp only at he
    subst he
    simp only [Message.send, htr, hdec]
    rfl
  · intro h1 h2
    simp only [deserializeRaw] at h1
    rcases hf : rawFold RawAcc.init entries with e | acc <;> rw [hf] at h1 <;>
      simp only [Except.bind] at h1
    · cases h1
    · have hnone : acc.errors = none :=
        rawFold_errors_none entries RawAcc.init acc hf h2 rfl
      rw [rawFinish_errors acc raw2 h1, hnone]
      rfl

/-- C2 witness: a concrete successful send whose body has no `errors` key. -/
theorem send_success_iff_witness :
    (Message.send msgMin trOk).isOk = true ∧
    Message.send msgMin trOk = .ok ⟨200, "rid", 1⟩ := by
  have h := send_success_iff msgMin 200 bodyOk ⟨[], "rid", 1⟩ trOk
    [("status", .num 1), ("request", .str "rid")] ⟨[], "rid", 1⟩ rfl rfl
  exact ⟨h.1.mpr rfl, h.2.1 rfl⟩

/-- C3: on a decoded response with a non-empty `errors` list, `send` fails
with exactly the entries joined by a comma and a space, in order. -/
theorem send_server_rejection (m : Message) (hs : Nat) (j : Json)
    (raw : RawMessageResponse)
    (transport : Json → Except ReqwestError HttpResponse)
    (htr : transport m.to_json = .ok ⟨hs, some j⟩)
    (hdec : deserializeRaw j = .ok raw)
    (hne : raw.errors ≠ []) :
    m.send transport = .error (.adhoc (String.intercalate ", " raw.errors)) := by
  obtain ⟨errs, req, st⟩ := raw
  simp only at hne ⊢
  rcases errs with _ | ⟨x, xs⟩
  · exact absurd rfl hne
  · simp only [Message.send, htr, hdec]
    rfl

/-- C3 witness: `errors: ["invalid token","invalid user"]` yields the
message "invalid token, invalid user". -/
theorem send_server_rejection_witness :
    Message.send msgMin trRej = .error (.adhoc "invalid token, invalid user") :=
  send_server_rejection msgMin 400 bodyRej
    ⟨["invalid token", "invalid user"], "r", 0⟩ trRej rfl rfl (by decide)

/-- C6: the three failure kinds of `send` — transport failure, body decode
failure, server rejection — surface as different dynamic error types inside
the returned `anyhow::Error`, so a caller can tell them apart. -/
theorem send_error_kinds (m : Message) (e : ReqwestError) (hs : Nat)
    (j j2 : Json) (emsg : String) (raw : RawMessageResponse) :
    (Message.send m (fun _ => .error e) = .error (.fromReqwest e)) ∧
    (deserializeRaw j = .error emsg →
      Message.send m (fun _ => .ok ⟨hs, some j⟩) = .error (.fromSerde emsg)) ∧
    (deserializeRaw j2 = .ok raw → raw.errors ≠ [] →
      Message.send m (fun _ => .ok ⟨hs, some j2⟩)
        = .error (.adhoc (String.intercalate ", " raw.errors))) ∧
    ((PushoverError.fromReqwest e).kind ≠ (PushoverError.fromSerde emsg).kind ∧
      (PushoverError.fromReqwest e).kind
        ≠ (PushoverError.adhoc (String.intercalate ", " raw.errors)).kind ∧
      (PushoverError.fromSerde emsg).kind
        ≠ (PushoverError.adhoc (String.intercalate ", " raw.errors)).kind) := by
  refine ⟨rfl, ?_, ?_, by simp [PushoverError.kind]⟩
  · intro hdec
    simp only [Message.send, hdec]
  · intro hdec hne
    exact send_server_rejection m hs j2 raw (fun _ => .ok ⟨hs, some j2⟩) rfl hdec hne

/-- C6 witness: the three failure kinds realized by concrete transports. -/
theorem send_error_kinds_witness :
    Message.send msgMin (fun _ => .error ⟨"connection refused"⟩)
      = .error (.fromReqwest ⟨"connection refused"⟩) ∧
    Message.send msgMin (fun _ => .ok ⟨200, some Json.null⟩)
      = .error (.fromSerde "invalid type: expected struct RawMessageResponse") ∧
    Message.send msgMin (fun _ => .ok ⟨200, some bodyRej⟩)
      = .error (.adhoc "invalid token, invalid user") := by
  have h := send_error_kinds msgMin ⟨"connection refused"⟩ 200 Json.null bodyRej
    "invalid type: expected struct RawMessageResponse"
    ⟨["invalid token", "invalid user"], "r", 0⟩
  exact ⟨h.1, h.2.1 rfl, h.2.2.1 rfl (by decide)⟩

/-- C8: the built request's `device` field is the `--device` occurrences
joined with "," in order when the flag occurred, and absent otherwise. -/
theorem cli_device_join (cli : SendMessageMatches) (m : Message)
    (h : buildMessage cli = .ok m) :
    m.device = cli.device.map (fun values => String.intercalate "," values) := by
  simp only [buildMessage] at h
  split at h
  · split at h
    · cases h
    · exact buildRest_device _ _ _ _ h
  · exact buildRest_device _ _ _ _ h

/-- C8 witness: `--device a --device b` yields the device field "a,b". -/
theorem cli_device_join_witness :
    (⟨"tok", "usr", "hi", some "a,b", none, none, none, none, none, none⟩ : Message).device
      = cliAB.device.map (fun values => String.intercalate "," values) :=
  cli_device_join cliAB _ rfl

/-- C9: with a `--timestamp` value that does not parse as a base-10 i64,
the CLI invocation fails with one fixed error whatever the transport does:
the process dies before any network call. -/
theorem cli_timestamp_parse_failure (cli : SendMessageMatches) (s : String)
    (hts : cli.timestamp = some s) (hp : parseI64 s = none) :
    ∃ e, ∀ transport, runSendMessage cli transport = .error e := by
  have hb : ∃ e, buildMessage cli = .error e := by
    simp only [buildMessage]
    rcases hq : cli.priority with _ | p
    · simp only [buildMessage.buildRest, hts, hp]
      exact ⟨_, rfl⟩
    · rcases hr : MessagePriority.fromStr p with _ | pr
      · simp only [hr]
        exact ⟨_, rfl⟩
      · simp only [hr, buildMessage.buildRest, hts, hp]
        exact ⟨_, rfl⟩
  obtain ⟨e, he⟩ := hb
  refine ⟨e, fun transport => ?_⟩
  unfold runSendMessage
  rw [he]

/-- C9 witness: `--timestamp notanumber` is fatal for every transport. -/
theorem cli_timestamp_parse_failure_witness :
    ∃ e, ∀ transport, runSendMessage cliBadTs transport = .error e :=
  cli_timestamp_parse_failure cliBadTs "notanumber" rfl (by decide)

/-- C10: a valid-JSON body missing the `request` or the `status` key makes
`send` fail with a decode error — even when the body carries a non-empty
`errors` array, it is not reported as a server rejection. -/
theorem send_missing_request_or_status (m : Message) (hs : Nat)
    (entries : List (String × Json))
    (transport : Json → Except ReqwestError HttpResponse)
    (htr : transport m.to_json = .ok ⟨hs, some (.obj entries)⟩)
    (hmiss : "request" ∉ entries.map Prod.fst ∨ "status" ∉ entries.map Prod.fst) :
    ∃ e, m.send transport = .error (.fromSerde e) := by
  have hdec : ∃ e, deserializeRaw (.obj entries) = .error e := by
    simp only [deserializeRaw]
    rcases hf : rawFold RawAcc.init entries with e | acc <;>
      simp only [Except.bind]
    · exact ⟨e, rfl⟩
    · obtain ⟨es, rq, st⟩ := acc
      rcases hmiss with hm | hm
      · have : rq = none :=
          rawFold_request_none entries RawAcc.init ⟨es, rq, st⟩ hf hm rfl
        subst this
        rcases st with _ | s
        · exact ⟨_, rfl⟩
        · exact ⟨_, rfl⟩
      · have : st = none :=
          rawFold_status_none entries RawAcc.init ⟨es, rq, st⟩ hf hm rfl
        subst this
        rcases rq with _ | r
        · exact ⟨_, rfl⟩
        · exact ⟨_, rfl⟩
  obtain ⟨e, he⟩ := hdec
  refine ⟨e, ?_⟩
  simp only [Message.send, htr, he]

/-- C10 witness: a body with a non-empty `errors` array but no `request`
key produces a decode error, not a server rejection. -/
theorem send_missing_request_witness :
    ∃ e, Message.send msgMin trNoReq = .error (.fromSerde e) :=
  send_missing_request_or_status msgMin 400
    [("errors", .arr [.str "invalid token"]), ("status", .num 0)]
    trNoReq rfl (.inl (by decide))
